import Mathlib

/-!
Verification of the hops-util-py client SDK against its natural-language
specification.  The python modules under scrutiny (`hops/kafka.py`,
`hops/serving.py`, `hops/constants.py`, and the featurestore query planner
exercised by `hops/tests/test_featurestore.py`) are shallowly embedded below:
pure string manipulation becomes Lean functions on `String`, python `dict`s
become insertion-ordered association lists, the REST backend becomes a
function `Request → Response` carried by an `Env` record, and python
exceptions become `Except Exc`.
-/

namespace Hops

/-- Model of a dynamically typed python value, as far as the `isinstance`
checks of the serving module can observe it.  The payload of a float is
irrelevant to every check modelled here, so `float` carries none. -/
inductive PyVal where
  | int (n : Int)
  | bool (b : Bool)
  | str (s : String)
  | float
  | pynone
  deriving DecidableEq, Repr

/-- Python `isinstance(v, int)`.  Python `bool` is a subclass of `int`, so
`isinstance(True, int)` holds and booleans pass the integer checks. -/
def PyVal.isinstance_int : PyVal → Bool
  | .int _ => true
  | .bool _ => true
  | _ => false

/-- Python `isinstance(v, bool)`. -/
def PyVal.isinstance_bool : PyVal → Bool
  | .bool _ => true
  | _ => false

/-- Model of a parsed JSON value (request payloads and parsed response
bodies).  `jfloat` stands for any float literal, whose value no modelled
code inspects. -/
inductive JVal where
  | str (s : String)
  | num (n : Int)
  | jbool (b : Bool)
  | jnull
  | jfloat
  | obj (kvs : List (String × JVal))
  | arr (xs : List JVal)

/-- The elements of a JSON array.  The servings endpoint answers with a
JSON array; iterating a non-array is totalized to the empty traversal. -/
def JVal.asArray : JVal → List JVal
  | .arr xs => xs
  | _ => []

/-- Embedding of a `PyVal` into the JSON payload it serializes to. -/
def PyVal.toJVal : PyVal → JVal
  | .int n => .num n
  | .bool b => .jbool b
  | .str s => .str s
  | .float => .jfloat
  | .pynone => .jnull

/-- Python `d[k] = v` on an insertion-ordered dict modelled as a
duplicate-free association list: overwrite in place when the key is
present, append otherwise. -/
def dictSet {α : Type} : List (String × α) → String → α → List (String × α)
  | [], k, v => [ (k, v)]
  | kv :: t, k, v => if kv.1 = k then (k, v) :: t else kv :: dictSet t k v

/-- Python `d[k]` on the same dict model (first binding wins). -/
def dictGet {α : Type} : List (String × α) → String → Option α
  | [], _ => none
  | kv :: t, k => if kv.1 = k then some kv.2 else dictGet t k

/-- An HTTP request as assembled by the client before it is handed to the
transport.  The JSON body is kept structured; `json.dumps` serialization is
not modelled. -/
structure Request where
  method : String
  url : String
  headers : List (String × String)
  body : Option JVal
  https : Bool

/-- An HTTP response from the backend.  `body` is the result of parsing the
response payload as JSON (`response.json()` / `json.loads`): an object for
most endpoints, an array for the servings list. -/
structure Response where
  status_code : Nat
  reason : String
  body : JVal

/-- A serving instance as parsed from the backend JSON
(`serving.Serving.__init__`). -/
structure Serving where
  status : String
  artifact_path : String
  name : String
  creator : String
  model_server : String
  serving_tool : String
  model_version : Int
  created : String
  requested_instances : Int
  kafka_topic_name : Option String
  id : Int
  deriving DecidableEq, Repr

/-- The python exceptions raised by the embedded code. -/
inductive Exc where
  | restAPIError (msg : String)
  | servingNotFound (msg : String)
  | valueError (msg : String)
  | featureNameCollisionError (msg : String)
  | featureNotFound (msg : String)
  deriving DecidableEq, Repr

/-- The ambient state the client runs against: the environment variables,
the TLS material exposed by the `tls` module, the HDFS view exposed by the
`hdfs` module, and the REST backend. -/
structure Env where
  project_id : String
  send : Request → Response
  hdfs_exists : String → Bool
  expand_path : String → String
  get_plain_path : String → String
  kafka_brokers : String
  trust_store : String
  trust_store_pwd : String
  key_store : String
  key_store_pwd : String
  appservice_base_json : List (String × JVal)

namespace constants

namespace ENV_VARIABLES

def KAFKA_BROKERS_ENV_VAR : String := "KAFKA_BROKERS"

end ENV_VARIABLES

namespace KAFKA_SSL_CONFIG

def SSL_TRUSTSTORE_LOCATION_CONFIG : String := "ssl.truststore.location"

def SSL_TRUSTSTORE_PASSWORD_CONFIG : String := "ssl.truststore.password"

def SSL_KEYSTORE_LOCATION_CONFIG : String := "ssl.keystore.location"

def SSL_KEYSTORE_PASSWORD_CONFIG : String := "ssl.keystore.password"

def SSL_KEY_PASSWORD_CONFIG : String := "ssl.key.password"

def SECURITY_PROTOCOL_CONFIG : String := "security.protocol"

end KAFKA_SSL_CONFIG

namespace KAFKA_PRODUCER_CONFIG

def BOOTSTRAP_SERVERS_CONFIG : String := "bootstrap.servers"

def KEY_SERIALIZER_CLASS_CONFIG : String := "key.serializer"

def VALUE_SERIALIZER_CLASS_CONFIG : String := "value.serializer"

end KAFKA_PRODUCER_CONFIG

namespace REST_CONFIG

def JSON_SCHEMA_TOPICNAME : String := "topicName"

def JSON_SCHEMA_VERSION : String := "version"

def HOPSWORKS_REST_RESOURCE : String := "hopsworks-api/api"

def HOPSWORKS_REST_APPSERVICE : String := "appservice"

/-- Modelled from the spec: `constants.py` in the provided sources stops at
`REST_CONFIG`; the project/serving/inference resource names used by
`serving.py` are missing, so natural REST resource names are assumed. -/
def HOPSWORKS_PROJECT_RESOURCE : String := "project"

def HOPSWORKS_SERVING_RESOURCE : String := "serving"

def HOPSWORKS_INFERENCE_RESOURCE : String := "inference"

def HOPSWORKS_MODELS_RESOURCE : String := "models"

def JSON_SERVING_MODEL_VERSION : String := "modelVersion"

def JSON_SERVING_ARTIFACT_PATH : String := "artifactPath"

def JSON_MODEL_SERVER : String := "modelServer"

def JSON_SERVING_TOOL : String := "servingTool"

def JSON_SERVING_NAME : String := "name"

def JSON_SERVING_KAFKA_TOPIC_DTO : String := "kafkaTopicDTO"

def JSON_KAFKA_TOPIC_NAME : String := "name"

def JSON_KAFKA_NUM_PARTITIONS : String := "numOfPartitions"

def JSON_KAFKA_NUM_REPLICAS : String := "numOfReplicas"

def JSON_SERVING_REQUESTED_INSTANCES : String := "requestedInstances"

def JSON_SERVING_BATCHING_ENABLED : String := "batchingEnabled"

def JSON_SERVING_ID : String := "id"

def JSON_SERVING_STATUS : String := "status"

def JSON_SERVING_CREATOR : String := "creator"

def JSON_SERVING_CREATED : String := "created"

end REST_CONFIG

namespace DELIMITERS

/-- Modelled from the spec: the `DELIMITERS` class is missing from the
provided `constants.py`. -/
def SLASH_DELIMITER : String := "/"

end DELIMITERS

namespace HTTP_CONFIG

/-- Modelled from the spec: the `HTTP_CONFIG` class is missing from the
provided `constants.py`. -/
def HTTP_CONTENT_TYPE : String := "Content-type"

def HTTP_APPLICATION_JSON : String := "application/json"

def HTTP_GET : String := "GET"

def HTTP_POST : String := "POST"

def HTTP_PUT : String := "PUT"

def HTTP_DELETE : String := "DELETE"

end HTTP_CONFIG

namespace MODEL_SERVING

/-- Modelled from the spec: the `MODEL_SERVING` class is missing from the
provided `constants.py`; the two model servers named by `serving.py`'s
docstrings ("TENSORFLOW_SERVING" or "FLASK") are assumed. -/
def MODEL_SERVER_TENSORFLOW_SERVING : String := "TENSORFLOW_SERVING"

def MODEL_SERVER_FLASK : String := "FLASK"

def MODEL_SERVERS : List String := [ MODEL_SERVER_TENSORFLOW_SERVING, MODEL_SERVER_FLASK]

def SERVING_TOOL_DEFAULT : String := "DEFAULT"

def SERVING_TOOL_KFSERVING : String := "KFSERVING"

def SERVING_ACTION_START : String := "START"

def SERVING_ACTION_STOP : String := "STOP"

def SERVING_START_OR_STOP_PATH_PARAM : String := "?action="

end MODEL_SERVING

end constants

namespace kafka

/-- `kafka.get_broker_endpoints`: the `KAFKA_BROKERS` environment variable
with every occurrence of the substring "INTERNAL://" removed
(python `str.replace` replaces all occurrences, as does `String.replace`). -/
def get_broker_endpoints (env : Env) : String :=
  env.kafka_brokers.replace "INTERNAL://" ""

/-- Python `s.split(sep)` for a one-character separator: splitting "a,b"
on ',' gives ["a", "b"] and splitting "" gives [""]. -/
def pysplit (s : String) (sep : Char) : List String :=
  (s.data.splitOn sep).map List.asString

/-- `kafka.get_broker_endpoints_list`: the broker string split on ",". -/
def get_broker_endpoints_list (env : Env) : List String :=
  pysplit (get_broker_endpoints env) ','

/-- `kafka.get_kafka_default_config`: builds the producer/SSL dict entry by
entry, exactly in source order. -/
def get_kafka_default_config (env : Env) : List (String × String) :=
  let default_config : List (String × String) := []
  let default_config := dictSet default_config
    constants.KAFKA_PRODUCER_CONFIG.BOOTSTRAP_SERVERS_CONFIG (get_broker_endpoints env)
  let default_config := dictSet default_config
    constants.KAFKA_PRODUCER_CONFIG.KEY_SERIALIZER_CLASS_CONFIG
    "org.apache.kafka.common.serialization.StringSerializer"
  let default_config := dictSet default_config
    constants.KAFKA_PRODUCER_CONFIG.VALUE_SERIALIZER_CLASS_CONFIG
    "org.apache.kafka.common.serialization.ByteArraySerializer"
  let default_config := dictSet default_config
    constants.KAFKA_SSL_CONFIG.SECURITY_PROTOCOL_CONFIG "SSL"
  let default_config := dictSet default_config
    constants.KAFKA_SSL_CONFIG.SSL_TRUSTSTORE_LOCATION_CONFIG env.trust_store
  let default_config := dictSet default_config
    constants.KAFKA_SSL_CONFIG.SSL_TRUSTSTORE_PASSWORD_CONFIG env.trust_store_pwd
  let default_config := dictSet default_config
    constants.KAFKA_SSL_CONFIG.SSL_KEYSTORE_LOCATION_CONFIG env.key_store
  let default_config := dictSet default_config
    constants.KAFKA_SSL_CONFIG.SSL_KEYSTORE_PASSWORD_CONFIG env.key_store_pwd
  let default_config := dictSet default_config
    constants.KAFKA_SSL_CONFIG.SSL_KEY_PASSWORD_CONFIG env.key_store_pwd
  default_config

/-- Modelled from the spec: `rest_api.py` is not among the provided sources;
`rest_prepare_rest_appservice_json_request` returns the base JSON carrying
the appservice auth material, taken here from the environment. -/
def rest_prepare_rest_appservice_json_request (env : Env) : List (String × JVal) :=
  env.appservice_base_json

/-- The single HTTPS POST request `kafka.get_schema` assembles: the base
appservice JSON with `topicName` and `version` set, the
application/json content type, and the appservice schema URL. -/
def get_schema_request (env : Env) (topic : String) (version_id : Int) : Request :=
  let json_contents := rest_prepare_rest_appservice_json_request env
  let json_contents := dictSet json_contents
    constants.REST_CONFIG.JSON_SCHEMA_TOPICNAME (JVal.str topic)
  let json_contents := dictSet json_contents
    constants.REST_CONFIG.JSON_SCHEMA_VERSION (JVal.num version_id)
  let headers : List (String × String) := [("Content-type", "application/json")]
  let resource : String := "schema"
  let resource_url := constants.REST_CONFIG.HOPSWORKS_REST_RESOURCE ++ "/" ++
    constants.REST_CONFIG.HOPSWORKS_REST_APPSERVICE ++ "/" ++ resource
  { method := "POST", url := resource_url, headers := headers,
    body := some (JVal.obj json_contents), https := true }

/-- `kafka.get_schema`: sends the request and returns the response body
parsed as JSON.  The source performs no check of the response status code:
whatever the backend answered is parsed and returned. -/
def get_schema (env : Env) (topic : String) (version_id : Int) : JVal :=
  (env.send (get_schema_request env topic version_id)).body

/-- `kafka.get_schema` with its default argument `version_id=1`. -/
def get_schema_default (env : Env) (topic : String) : JVal :=
  get_schema env topic 1

end kafka

/-- Python truthiness of a `PyVal`, used by `if kfserving and batching_enabled`.
The float case is never reached by the modelled checks (batching_enabled has
passed an `isinstance(·, bool)` test by then), so its value is immaterial. -/
def PyVal.truthy : PyVal → Bool
  | .int n => n != 0
  | .bool b => b
  | .str s => s != ""
  | .float => true
  | .pynone => false

namespace serving

/-- Modelled from the spec: `util.py` is not among the provided sources;
`util._parse_rest_error` extracts the error code, error message and user
message from the parsed JSON error body, defaulting when absent. -/
def _parse_rest_error (body : JVal) : Int × String × String :=
  let kvs := match body with
    | JVal.obj kvs => kvs
    | _ => []
  let error_code : Int := match dictGet kvs "errorCode" with
    | some (JVal.num n) => n
    | _ => 0
  let error_msg : String := match dictGet kvs "errorMsg" with
    | some (JVal.str s) => s
    | _ => ""
  let user_msg : String := match dictGet kvs "usrMsg" with
    | some (JVal.str s) => s
    | _ => ""
  (error_code, error_msg, user_msg)

/-- The error text all serving REST helpers raise with: the per-call prelude
followed by the url, status code, reason, and the parsed error triple.
(Values interpolated by python's `format` are concatenated here.) -/
def _rest_error_msg (prelude : String) (url : String) (response : Response) : String :=
  let e := _parse_rest_error response.body
  prelude ++ " (url: " ++ url ++ "), server response: \n HTTP code: " ++
    toString response.status_code ++ ", HTTP reason: " ++ response.reason ++
    ", error code: " ++ toString e.1 ++ ", error msg: " ++ e.2.1 ++
    ", user msg: " ++ e.2.2

/-- The serving resource URL prefix shared by every serving REST helper:
`/hopsworks-api/api/project/<project_id>/serving/`. -/
def _serving_base_url (env : Env) : String :=
  constants.DELIMITERS.SLASH_DELIMITER ++
  constants.REST_CONFIG.HOPSWORKS_REST_RESOURCE ++ constants.DELIMITERS.SLASH_DELIMITER ++
  constants.REST_CONFIG.HOPSWORKS_PROJECT_RESOURCE ++ constants.DELIMITERS.SLASH_DELIMITER ++
  env.project_id ++ constants.DELIMITERS.SLASH_DELIMITER ++
  constants.REST_CONFIG.HOPSWORKS_SERVING_RESOURCE ++ constants.DELIMITERS.SLASH_DELIMITER

/-- The response the backend returns to `_delete_serving_rest`'s DELETE. -/
def _delete_serving_response (env : Env) (serving_id : Int) : Response :=
  env.send { method := constants.HTTP_CONFIG.HTTP_DELETE,
             url := _serving_base_url env ++ toString serving_id,
             headers := [], body := none, https := true }

/-- `serving._delete_serving_rest`: DELETE the serving, raise `RestAPIError`
when the status code is not 200, return `None` otherwise. -/
def _delete_serving_rest (env : Env) (serving_id : Int) : Except Exc Unit :=
  let response := _delete_serving_response env serving_id
  if response.status_code ≠ 200 then
    .error (.restAPIError (_rest_error_msg
      ("Could not delete serving with id " ++ toString serving_id)
      (_serving_base_url env ++ toString serving_id) response))
  else .ok ()

/-- The response the backend returns to `_start_or_stop_serving_rest`'s POST. -/
def _start_or_stop_serving_response (env : Env) (serving_id : Int) (action : String) : Response :=
  env.send { method := constants.HTTP_CONFIG.HTTP_POST,
             url := _serving_base_url env ++ toString serving_id ++
               constants.MODEL_SERVING.SERVING_START_OR_STOP_PATH_PARAM ++ action,
             headers := [], body := none, https := true }

/-- `serving._start_or_stop_serving_rest`: POST the action, raise
`RestAPIError` when the status code is not 200, return `None` otherwise. -/
def _start_or_stop_serving_rest (env : Env) (serving_id : Int) (action : String) : Except Exc Unit :=
  let response := _start_or_stop_serving_response env serving_id action
  if response.status_code ≠ 200 then
    .error (.restAPIError (_rest_error_msg
      ("Could not perform action " ++ action ++ " on serving with id " ++ toString serving_id)
      (_serving_base_url env ++ toString serving_id ++
        constants.MODEL_SERVING.SERVING_START_OR_STOP_PATH_PARAM ++ action) response))
  else .ok ()

/-- The JSON payload `_create_or_update_serving_rest` assembles, in source
order: the serving fields, the nested kafka topic DTO, the id only on
UPDATE, and `batchingEnabled` only for Tensorflow Serving. -/
def _create_or_update_serving_json (serving_name model_path : String) (model_version : PyVal)
    (model_server : String) (kfserving : Bool) (batching_enabled : PyVal) (topic_name : String)
    (num_partitions num_replicas : PyVal) (serving_id : Option Int) (instances : PyVal) :
    List (String × JVal) :=
  let serving_tool := if kfserving then constants.MODEL_SERVING.SERVING_TOOL_KFSERVING
    else constants.MODEL_SERVING.SERVING_TOOL_DEFAULT
  let json_contents : List (String × JVal) :=
    [ (constants.REST_CONFIG.JSON_SERVING_MODEL_VERSION, model_version.toJVal),
      (constants.REST_CONFIG.JSON_SERVING_ARTIFACT_PATH, JVal.str model_path),
      (constants.REST_CONFIG.JSON_MODEL_SERVER, JVal.str model_server),
      (constants.REST_CONFIG.JSON_SERVING_TOOL, JVal.str serving_tool),
      (constants.REST_CONFIG.JSON_SERVING_NAME, JVal.str serving_name),
      (constants.REST_CONFIG.JSON_SERVING_KAFKA_TOPIC_DTO, JVal.obj
        [ (constants.REST_CONFIG.JSON_KAFKA_TOPIC_NAME, JVal.str topic_name),
          (constants.REST_CONFIG.JSON_KAFKA_NUM_PARTITIONS, num_partitions.toJVal),
          (constants.REST_CONFIG.JSON_KAFKA_NUM_REPLICAS, num_replicas.toJVal)]),
      (constants.REST_CONFIG.JSON_SERVING_REQUESTED_INSTANCES, instances.toJVal)]
  let json_contents := match serving_id with
    | some i => dictSet json_contents constants.REST_CONFIG.JSON_SERVING_ID (JVal.num i)
    | none => json_contents
  let json_contents :=
    if model_server = constants.MODEL_SERVING.MODEL_SERVER_TENSORFLOW_SERVING then
      dictSet json_contents constants.REST_CONFIG.JSON_SERVING_BATCHING_ENABLED
        batching_enabled.toJVal
    else json_contents
  json_contents

/-- The response the backend returns to `_create_or_update_serving_rest`'s PUT. -/
def _create_or_update_serving_response (env : Env) (serving_name model_path : String)
    (model_version : PyVal) (model_server : String) (kfserving : Bool) (batching_enabled : PyVal)
    (topic_name : String) (num_partitions num_replicas : PyVal) (serving_id : Option Int)
    (instances : PyVal) : Response :=
  env.send { method := constants.HTTP_CONFIG.HTTP_PUT,
             url := _serving_base_url env,
             headers := [ (constants.HTTP_CONFIG.HTTP_CONTENT_TYPE,
                           constants.HTTP_CONFIG.HTTP_APPLICATION_JSON)],
             body := some (JVal.obj (_create_or_update_serving_json serving_name model_path
               model_version model_server kfserving batching_enabled topic_name num_partitions
               num_replicas serving_id instances)),
             https := true }

/-- `serving._create_or_update_serving_rest`: PUT the serving JSON, raise
`RestAPIError` when the status code is neither 201 nor 200, return `None`
otherwise. -/
def _create_or_update_serving_rest (env : Env) (serving_name model_path : String)
    (model_version : PyVal) (model_server : String) (kfserving : Bool) (batching_enabled : PyVal)
    (topic_name : String) (num_partitions num_replicas : PyVal) (serving_id : Option Int)
    (instances : PyVal) : Except Exc Unit :=
  let response := _create_or_update_serving_response env serving_name model_path model_version
    model_server kfserving batching_enabled topic_name num_partitions num_replicas serving_id
    instances
  if response.status_code ≠ 201 ∧ response.status_code ≠ 200 then
    .error (.restAPIError (_rest_error_msg "Could not create or update serving"
      (_serving_base_url env) response))
  else .ok ()

/-- The GET request `_get_servings_rest` sends. -/
def _get_servings_request (env : Env) : Request :=
  { method := constants.HTTP_CONFIG.HTTP_GET, url := _serving_base_url env,
    headers := [], body := none, https := true }

/-- The response the backend returns to `_get_servings_rest`'s GET. -/
def _get_servings_response (env : Env) : Response :=
  env.send (_get_servings_request env)

/-- `serving._get_servings_rest`: GET the servings of the project, raise
`RestAPIError` when the status code is not 200, return the parsed JSON
otherwise. -/
def _get_servings_rest (env : Env) : Except Exc JVal :=
  let response := _get_servings_response env
  let response_object := response.body
  if response.status_code ≠ 200 then
    .error (.restAPIError (_rest_error_msg
      "Could not fetch list of servings from Hopsworks REST API"
      (_serving_base_url env) response))
  else .ok response_object

/-- The response the backend returns to `_make_inference_request_rest`'s POST. -/
def _make_inference_request_response (env : Env) (serving_name : String) (data : JVal)
    (verb : String) : Response :=
  env.send { method := constants.HTTP_CONFIG.HTTP_POST,
             url := constants.DELIMITERS.SLASH_DELIMITER ++
               constants.REST_CONFIG.HOPSWORKS_REST_RESOURCE ++
               constants.DELIMITERS.SLASH_DELIMITER ++
               constants.REST_CONFIG.HOPSWORKS_PROJECT_RESOURCE ++
               constants.DELIMITERS.SLASH_DELIMITER ++ env.project_id ++
               constants.DELIMITERS.SLASH_DELIMITER ++
               constants.REST_CONFIG.HOPSWORKS_INFERENCE_RESOURCE ++
               constants.DELIMITERS.SLASH_DELIMITER ++
               constants.REST_CONFIG.HOPSWORKS_MODELS_RESOURCE ++
               constants.DELIMITERS.SLASH_DELIMITER ++ serving_name ++ verb,
             headers := [ (constants.HTTP_CONFIG.HTTP_CONTENT_TYPE,
                           constants.HTTP_CONFIG.HTTP_APPLICATION_JSON)],
             body := some data, https := true }

/-- `serving._make_inference_request_rest`: POST the inference payload,
raise `RestAPIError` when the status code is neither 201 nor 200, and on
success return the response body parsed as JSON. -/
def _make_inference_request_rest (env : Env) (serving_name : String) (data : JVal)
    (verb : String) : Except Exc JVal :=
  let response := _make_inference_request_response env serving_name data verb
  let response_object := response.body
  if response.status_code ≠ 201 ∧ response.status_code ≠ 200 then
    .error (.restAPIError (_rest_error_msg "Could not create or update serving"
      (constants.DELIMITERS.SLASH_DELIMITER ++
        constants.REST_CONFIG.HOPSWORKS_REST_RESOURCE) response))
  else .ok response_object

/-- `serving.make_inference_request` forwards to the REST helper. -/
def make_inference_request (env : Env) (serving_name : String) (data : JVal)
    (verb : String) : Except Exc JVal :=
  _make_inference_request_rest env serving_name data verb

/-- The loop of `_find_serving_with_name`: walk the list in order, return
the first serving whose name equals the requested one, and accumulate the
names seen (most recent first) for the `ServingNotFound` message. -/
def _find_serving_loop (serving_name : String) :
    List Serving → List String → Except Exc Serving
  | [], serving_names =>
    .error (.servingNotFound ("No serving with name: " ++ serving_name ++
      " could be found among the list of available servings: " ++
      String.intercalate "," serving_names.reverse))
  | serving :: rest, serving_names =>
    if serving.name = serving_name then .ok serving
    else _find_serving_loop serving_name rest (serving.name :: serving_names)

/-- `serving._find_serving_with_name`: linear search in list order,
raising `ServingNotFound` when no serving carries the name. -/
def _find_serving_with_name (serving_name : String) (servings : List Serving) :
    Except Exc Serving :=
  _find_serving_loop serving_name servings []

/-- A string field of a parsed JSON object (python raises `KeyError` on a
missing field and lets ill-typed values flow; the model totalizes both with
a default). -/
def jStr : Option JVal → String
  | some (JVal.str s) => s
  | _ => ""

/-- An integer field of a parsed JSON object, totalized like `jStr`. -/
def jInt : Option JVal → Int
  | some (JVal.num n) => n
  | _ => 0

/-- `serving.Serving.__init__`: field-by-field read of one serving's JSON
object (the source reads `creator` twice, with the same result; the kafka
topic DTO is read only when present).  Missing or ill-typed fields are
totalized with defaults where python would raise `KeyError`. -/
def Serving.fromJson (serving_json : JVal) : Serving :=
  let kvs := match serving_json with
    | JVal.obj kvs => kvs
    | _ => []
  { status := jStr (dictGet kvs constants.REST_CONFIG.JSON_SERVING_STATUS),
    artifact_path := jStr (dictGet kvs constants.REST_CONFIG.JSON_SERVING_ARTIFACT_PATH),
    name := jStr (dictGet kvs constants.REST_CONFIG.JSON_SERVING_NAME),
    creator := jStr (dictGet kvs constants.REST_CONFIG.JSON_SERVING_CREATOR),
    model_server := jStr (dictGet kvs constants.REST_CONFIG.JSON_MODEL_SERVER),
    serving_tool := jStr (dictGet kvs constants.REST_CONFIG.JSON_SERVING_TOOL),
    model_version := jInt (dictGet kvs constants.REST_CONFIG.JSON_SERVING_MODEL_VERSION),
    created := jStr (dictGet kvs constants.REST_CONFIG.JSON_SERVING_CREATED),
    requested_instances :=
      jInt (dictGet kvs constants.REST_CONFIG.JSON_SERVING_REQUESTED_INSTANCES),
    kafka_topic_name := match dictGet kvs constants.REST_CONFIG.JSON_SERVING_KAFKA_TOPIC_DTO with
      | some (JVal.obj topic_kvs) =>
        some (jStr (dictGet topic_kvs constants.REST_CONFIG.JSON_KAFKA_TOPIC_NAME))
      | _ => none,
    id := jInt (dictGet kvs constants.REST_CONFIG.JSON_SERVING_ID) }

/-- `serving._parse_json_servings`: map the `Serving` constructor over the
list of JSON servings. -/
def _parse_json_servings (json_servings : List JVal) : List Serving :=
  json_servings.map (fun json_serving => Serving.fromJson json_serving)

/-- `serving.get_all`: `_parse_json_servings(_get_servings_rest())`.  The
`RestAPIError` that `_get_servings_rest` raises on a non-200 servings GET
propagates to the caller. -/
def get_all (env : Env) : Except Exc (List Serving) := do
  let response_object ← _get_servings_rest env
  pure (_parse_json_servings response_object.asArray)

/-- The `try` body of `serving.get_id`: fetch the servings (which can raise
`RestAPIError`), find the one with the requested name, and return its id. -/
def get_id_try (env : Env) (serving_name : String) : Except Exc Int := do
  let servings ← get_all env
  let serving ← _find_serving_with_name serving_name servings
  pure serving.id

/-- `serving.get_id`: the body above with `except ServingNotFound: return
None`; any other exception (the `RestAPIError` of a failed servings GET)
propagates. -/
def get_id (env : Env) (serving_name : String) : Except Exc (Option Int) :=
  match get_id_try env serving_name with
  | .ok i => .ok (some i)
  | .error (.servingNotFound _) => .ok none
  | .error e => .error e

/-- The `try` body of `serving.exists`: `get_id(serving_name) is not None`. -/
def exists_try (env : Env) (serving_name : String) : Except Exc Bool := do
  let v ← get_id env serving_name
  pure v.isSome

/-- `serving.exists` (named `exists_serving` here; `exists` is reserved in
Lean): the body above with `except ServingNotFound: return False`. -/
def exists_serving (env : Env) (serving_name : String) : Except Exc Bool :=
  match exists_try env serving_name with
  | .ok b => .ok b
  | .error (.servingNotFound _) => .ok false
  | .error e => .error e

/-- `serving._detect_model_server`: Tensorflow Serving unless the artifact
is a python script. -/
def _detect_model_server (artifact_path : String) : String :=
  if artifact_path.endsWith ".py" then constants.MODEL_SERVING.MODEL_SERVER_FLASK
  else constants.MODEL_SERVING.MODEL_SERVER_TENSORFLOW_SERVING

/-- ASCII alphanumeric, the character class `[a-zA-Z0-9]`. -/
def isAlnumAscii (c : Char) : Bool :=
  ('a' ≤ c && c ≤ 'z') || ('A' ≤ c && c ≤ 'Z') || ('0' ≤ c && c ≤ '9')

/-- Python `re.match("^[a-zA-Z0-9]+$", s)` is truthy iff `s` is one or more
ASCII alphanumerics, or one or more ASCII alphanumerics followed by a single
trailing newline: in python's `re`, `$` matches at the end of the string
and also just before a newline at the end of the string. -/
def re_match_alnum_anchored (s : String) : Bool :=
  (s.data ≠ [] && s.data.all isAlnumAscii) ||
  (s.data.getLast? = some '\n' && s.data.dropLast ≠ [] && s.data.dropLast.all isAlnumAscii)

/-- `serving._validate_user_serving_input`: the client-side checks, in
source order, each raising `ValueError`.  The checks on `num_replicas`,
`num_partitions` and `batching_enabled` run only for Tensorflow Serving. -/
def _validate_user_serving_input (env : Env) (serving_name model_path : String)
    (model_version : PyVal) (model_server : String) (kfserving : Bool)
    (batching_enabled : PyVal) (topic_name : String) (num_partitions num_replicas : PyVal)
    (instances : PyVal) : Except Exc Unit :=
  if serving_name.length > 256 || serving_name = "" || !(re_match_alnum_anchored serving_name) then
    .error (.valueError ("Name of serving cannot be empty, cannot exceed 256 characters " ++
      "and must match the regular expression: ^[a-zA-Z0-9]+$, the provided name: " ++
      serving_name ++ " is not valid"))
  else if !(env.hdfs_exists model_path) then
    .error (.valueError ("The model/artifact path must exist in HDFS, the provided path: " ++
      model_path ++ " does not exist"))
  else if !(constants.MODEL_SERVING.MODEL_SERVERS.contains model_server) then
    .error (.valueError ("The provided model_server: " ++ model_server ++
      " is not supported, supported model servers are: " ++
      String.intercalate "," constants.MODEL_SERVING.MODEL_SERVERS))
  else if !model_version.isinstance_int then
    .error (.valueError "The model version must be an integer, the provided version is not")
  else if model_server = constants.MODEL_SERVING.MODEL_SERVER_TENSORFLOW_SERVING &&
      !num_replicas.isinstance_int then
    .error (.valueError
      "Number of kafka topic replicas must be an integer, the provided num replicas is not")
  else if model_server = constants.MODEL_SERVING.MODEL_SERVER_TENSORFLOW_SERVING &&
      !num_partitions.isinstance_int then
    .error (.valueError
      "Number of kafka topic partitions must be an integer, the provided num partitions is not")
  else if model_server = constants.MODEL_SERVING.MODEL_SERVER_TENSORFLOW_SERVING &&
      !batching_enabled.isinstance_bool then
    .error (.valueError "Batching enabled must be a boolean, the provided value is not")
  else if model_server = constants.MODEL_SERVING.MODEL_SERVER_TENSORFLOW_SERVING &&
      (kfserving && batching_enabled.truthy) then
    .error (.valueError "Batching requests is currently not supported in KFServing deployments")
  else if kfserving && model_server = constants.MODEL_SERVING.MODEL_SERVER_FLASK then
    .error (.valueError "Flask is currently not supported for KFServing deployments")
  else if !instances.isinstance_int then
    .error (.valueError
      "The number of serving instances must be an integer, the provided version is not")
  else .ok ()

/-- `serving.create_or_update`: look the serving up, expand the artifact
path, infer the model server when absent, validate the user input, and only
then PUT the create-or-update request.  Python defaults: model_version=1,
model_server=None, kfserving=False, batching_enabled=False,
topic_name="CREATE", num_partitions=1, num_replicas=1, instances=1. -/
def create_or_update (env : Env) (serving_name artifact_path : String) (model_version : PyVal)
    (model_server_arg : Option String) (kfserving : Bool) (batching_enabled : PyVal)
    (topic_name : String) (num_partitions num_replicas : PyVal) (instances : PyVal) :
    Except Exc Unit := do
  let serving_id ← get_id env serving_name
  let artifact_path := env.expand_path artifact_path
  let model_server := match model_server_arg with
    | none => _detect_model_server artifact_path
    | some ms => ms
  _validate_user_serving_input env serving_name artifact_path model_version model_server
    kfserving batching_enabled topic_name num_partitions num_replicas instances
  let artifact_path := env.get_plain_path artifact_path
  _create_or_update_serving_rest env serving_name artifact_path model_version model_server
    kfserving batching_enabled topic_name num_partitions num_replicas serving_id instances

end serving

/-- A feature of a feature group, as far as the query planner inspects it. -/
structure Feature where
  name : String
  deriving DecidableEq, Repr

/-- A feature group of the feature-store metadata: a Hive table
`<name>_<version>` with a list of features. -/
structure FeatureGroup where
  name : String
  version : Nat
  features : List Feature
  deriving DecidableEq, Repr

namespace query_planner

/-- Modelled from the spec: the featurestore query-planner module is not
among the provided sources (only `tests/test_featurestore.py` is); the
table name of a feature group is `<name>_<version>`. -/
def _get_table_name (fg : FeatureGroup) : String :=
  fg.name ++ "_" ++ toString fg.version

/-- One equality condition of the join clause:
`<first>_<v>.` `<key>` `=<other>_<v>.` `<key>` with the key backquoted. -/
def _join_condition (first fg : FeatureGroup) (join_key : String) : String :=
  _get_table_name first ++ ".`" ++ join_key ++ "`=" ++ _get_table_name fg ++ ".`" ++ join_key ++ "`"

/-- The equality conditions of the remaining feature groups, separated by
" AND " (no separator after the last). -/
def _join_conditions (first : FeatureGroup) (join_key : String) :
    List FeatureGroup → String
  | [] => ""
  | [fg] => _join_condition first fg join_key
  | fg :: rest => _join_condition first fg join_key ++ " AND " ++
      _join_conditions first join_key rest

/-- Modelled from the spec: `query_planner._get_join_str` is not among the
provided sources; per the spec it string-concatenates the SQL join clause:
one "JOIN <table> " token per feature group after the first, then "ON ",
then the equality conditions joined by " AND "
(`test_get_join_str` asserts the exact output). -/
def _get_join_str (featuregroups : List FeatureGroup) (join_key : String) : String :=
  let join_str := (featuregroups.drop 1).foldl
    (fun s fg => s ++ "JOIN " ++ _get_table_name fg ++ " ") ""
  let join_str := join_str ++ "ON "
  match featuregroups with
  | [] => join_str
  | first :: rest => join_str ++ _join_conditions first join_key rest

/-- Modelled from the spec: linear search over the metadata list,
collecting (in list order) every feature group whose features include the
requested feature name. -/
def _find_featuregroup_that_contains_feature (featuregroups : List FeatureGroup)
    (feature : String) : List FeatureGroup :=
  featuregroups.foldl
    (fun matched fg =>
      if fg.features.any (fun f => f.name == feature) then matched ++ [fg] else matched)
    []

/-- Modelled from the spec: `query_planner._find_feature` resolves a feature
name to the unique feature group containing it, raising
`FeatureNotFound` when no feature group matches and
`FeatureNameCollisionError` when more than one does
(`test_find_feature` asserts all three behaviours). -/
def _find_feature (feature : String) (featurestore : String)
    (featuregroups : List FeatureGroup) : Except Exc FeatureGroup :=
  match _find_featuregroup_that_contains_feature featuregroups feature with
  | [] => .error (.featureNotFound ("Could not find the feature with name " ++ feature ++
      " in any of the featuregroups of the featurestore: " ++ featurestore))
  | [fg] => .ok fg
  | _ :: _ :: _ => .error (.featureNameCollisionError ("Found the feature with name " ++
      feature ++ " in more than one of the featuregroups of the featurestore " ++ featurestore))

end query_planner

/-- The `attendances_features` feature group of the test metadata. -/
def attendances_features_fg : FeatureGroup :=
  { name := "attendances_features", version := 1,
    features := [⟨"average_attendance"⟩, ⟨"team_id"⟩] }

/-- The `players_features` feature group of the test metadata. -/
def players_features_fg : FeatureGroup :=
  { name := "players_features", version := 1,
    features := [⟨"average_player_worth"⟩, ⟨"average_player_age"⟩, ⟨"team_id"⟩] }

/-- The `season_scores_features` feature group of the test metadata. -/
def season_scores_features_fg : FeatureGroup :=
  { name := "season_scores_features", version := 1,
    features := [⟨"average_position"⟩, ⟨"sum_position"⟩, ⟨"team_id"⟩] }

/-- The `teams_features` feature group of the test metadata. -/
def teams_features_fg : FeatureGroup :=
  { name := "teams_features", version := 1,
    features := [⟨"team_budget"⟩, ⟨"team_id"⟩, ⟨"team_position"⟩] }

/-- The `games_features` feature group of the test metadata (its join keys
differ from `team_id`). -/
def games_features_fg : FeatureGroup :=
  { name := "games_features", version := 1,
    features := [⟨"score"⟩, ⟨"home_team_id"⟩, ⟨"away_team_id"⟩] }

/-- The four feature groups selected and sorted (ascending by name) by
`test_get_join_str`. -/
def join_test_featuregroups : List FeatureGroup :=
  [ attendances_features_fg, players_features_fg, season_scores_features_fg, teams_features_fg]

/-- The full metadata list used by the `_find_feature` tests. -/
def sample_featuregroups : List FeatureGroup :=
  [ attendances_features_fg, players_features_fg, season_scores_features_fg, teams_features_fg,
    games_features_fg]

/-- Whether a python computation ended by raising `RestAPIError`. -/
def raisesRestAPIError {α : Type} : Except Exc α → Bool
  | .error (.restAPIError _) => true
  | _ => false

/-- Whether a python computation ended by raising `ValueError`. -/
def raisesValueError {α : Type} : Except Exc α → Bool
  | .error (.valueError _) => true
  | _ => false

/-- The JSON of one serving as the backend lists it, used by concrete
evaluations. -/
def sampleServingJson : JVal :=
  JVal.obj
    [ ("status", JVal.str "Running"), ("artifactPath", JVal.str "/Models/mnist"),
      ("name", JVal.str "mnist"), ("creator", JVal.str "admin"),
      ("modelServer", JVal.str "TENSORFLOW_SERVING"), ("servingTool", JVal.str "DEFAULT"),
      ("modelVersion", JVal.num 1), ("created", JVal.str "2020-01-01"),
      ("requestedInstances", JVal.num 1),
      ("kafkaTopicDTO", JVal.obj
        [ ("name", JVal.str "mnist-topic"), ("numOfPartitions", JVal.num 1),
          ("numOfReplicas", JVal.num 1)]),
      ("id", JVal.num 42)]

/-- A successful backend response listing one serving. -/
def okResponse : Response :=
  { status_code := 200, reason := "OK", body := JVal.arr [sampleServingJson] }

/-- A failed backend response carrying a parsed JSON error body. -/
def errResponse : Response :=
  { status_code := 500, reason := "Internal Server Error",
    body := JVal.obj [ ("errorCode", JVal.num 120000), ("errorMsg", JVal.str "boom"),
                       ("usrMsg", JVal.str "bad")] }

/-- A concrete environment whose backend accepts every request. -/
def baseEnv : Env :=
  { project_id := "proj1", send := fun _ => okResponse,
    hdfs_exists := fun _ => true, expand_path := fun p => p, get_plain_path := fun p => p,
    kafka_brokers := "INTERNAL://broker1:9091,broker2:9092",
    trust_store := "/srv/t_certificate", trust_store_pwd := "tpwd",
    key_store := "/srv/k_certificate", key_store_pwd := "kpwd",
    appservice_base_json := [ ("keyStorePwd", JVal.str "kpwd")] }

/-- The same environment with a backend that fails every request. -/
def failEnv : Env :=
  { baseEnv with send := fun _ => errResponse }

/-! ### Helper lemmas about `String` concatenation, `String.join`,
`String.intercalate`, and `List.asString`. -/

theorem str_intercalate_go_append (s : String) :
    ∀ (l : List String) (acc₁ acc₂ : String),
      String.intercalate.go (acc₁ ++ acc₂) s l = acc₁ ++ String.intercalate.go acc₂ s l := by
  intro l
  induction l with
  | nil => intro acc₁ acc₂; rfl
  | cons a as ih =>
    intro acc₁ acc₂
    simp only [String.intercalate.go]
    rw [show ((acc₁ ++ acc₂) ++ s) ++ a = acc₁ ++ (((acc₂ ++ s)) ++ a) from by
      simp [String.append_assoc]]
    exact ih acc₁ ((acc₂ ++ s) ++ a)

theorem str_intercalate_cons_cons (s x y : String) (l : List String) :
    String.intercalate s (x :: y :: l) = x ++ s ++ String.intercalate s (y :: l) := by
  show String.intercalate.go ((x ++ s) ++ y) s l = (x ++ s) ++ String.intercalate.go y s l
  exact str_intercalate_go_append s l (x ++ s) y

theorem str_foldl_append (l : List String) :
    ∀ (acc₁ acc₂ : String),
      List.foldl (fun r s => r ++ s) (acc₁ ++ acc₂) l =
        acc₁ ++ List.foldl (fun r s => r ++ s) acc₂ l := by
  induction l with
  | nil => intro _ _; rfl
  | cons a as ih =>
    intro acc₁ acc₂
    simp only [List.foldl_cons]
    rw [String.append_assoc]
    exact ih acc₁ (acc₂ ++ a)

theorem str_join_cons (a : String) (l : List String) :
    String.join (a :: l) = a ++ String.join l := by
  show List.foldl (fun r s => r ++ s) ("" ++ a) l = a ++ String.join l
  rw [String.empty_append]
  have h := str_foldl_append l a ""
  rw [String.append_empty] at h
  exact h

theorem asString_append (l m : List Char) :
    List.asString (l ++ m) = List.asString l ++ List.asString m := by
  apply String.ext
  simp [String.data_append, List.asString]

theorem asString_data (s : String) : List.asString s.data = s := by
  apply String.ext
  simp [List.asString]

/-! ### Helper lemmas for the query planner's join-string builder. -/

theorem join_tokens_foldl (l : List FeatureGroup) :
    ∀ acc : String,
      l.foldl (fun s fg => s ++ "JOIN " ++ query_planner._get_table_name fg ++ " ") acc =
        acc ++ String.join
          (l.map (fun fg => "JOIN " ++ query_planner._get_table_name fg ++ " ")) := by
  induction l with
  | nil =>
    intro acc
    rw [List.map_nil, show String.join [] = "" from rfl, String.append_empty]
    rfl
  | cons a as ih =>
    intro acc
    simp only [List.foldl_cons, List.map_cons]
    rw [str_join_cons, ih]
    simp [String.append_assoc]

theorem join_conditions_eq (first : FeatureGroup) (join_key : String) :
    ∀ rest : List FeatureGroup,
      query_planner._join_conditions first join_key rest =
        String.intercalate " AND "
          (rest.map (fun fg => query_planner._join_condition first fg join_key)) := by
  intro rest
  induction rest with
  | nil => rfl
  | cons fg t ih =>
    cases t with
    | nil => rfl
    | cons fg₂ t₂ =>
      show query_planner._join_condition first fg join_key ++ " AND " ++
          query_planner._join_conditions first join_key (fg₂ :: t₂) = _
      rw [ih]
      simp only [List.map_cons]
      rw [str_intercalate_cons_cons]

set_option maxRecDepth 8192 in
/-- C1: for every non-empty ascending list of feature groups sharing a join
key, `_get_join_str` emits one "JOIN <name>_<version> " token per feature
group after the first, then "ON ", then one backquoted equality condition
per remaining feature group joined by " AND "; on the four test feature
groups with key `team_id` it returns exactly the string asserted by
`test_get_join_str`. -/
theorem get_join_str_spec :
    (∀ (first : FeatureGroup) (rest : List FeatureGroup) (join_key : String),
      query_planner._get_join_str (first :: rest) join_key =
        String.join (rest.map (fun fg => "JOIN " ++ query_planner._get_table_name fg ++ " ")) ++
          "ON " ++
          String.intercalate " AND "
            (rest.map (fun fg => query_planner._join_condition first fg join_key))) ∧
    query_planner._get_join_str join_test_featuregroups "team_id" =
      "JOIN players_features_1 JOIN season_scores_features_1 JOIN teams_features_1 ON attendances_features_1.`team_id`=players_features_1.`team_id` AND attendances_features_1.`team_id`=season_scores_features_1.`team_id` AND attendances_features_1.`team_id`=teams_features_1.`team_id`" := by
  constructor
  · intro first rest join_key
    simp only [query_planner._get_join_str, List.drop_succ_cons, List.drop_zero]
    rw [join_tokens_foldl, String.empty_append, join_conditions_eq]
  · rfl

/-- C8: splitting the broker string on "," and joining the pieces back with
"," restores the broker string, and the split list is never empty. -/
theorem broker_endpoints_round_trip :
    ∀ env : Env,
      String.intercalate "," (kafka.get_broker_endpoints_list env) =
        kafka.get_broker_endpoints env ∧
      kafka.get_broker_endpoints_list env ≠ [] := by
  have bridge : ∀ parts : List (List Char),
      String.intercalate "," (parts.map List.asString) =
        List.asString ([ ','].intercalate parts) := by
    intro parts
    induction parts with
    | nil => rfl
    | cons a t ih =>
      cases t with
      | nil =>
        show List.asString a = List.asString (List.intercalate [ ','] [a])
        rw [show List.intercalate [ ','] [a] = a from by simp [List.intercalate, List.intersperse]]
      | cons b t₂ =>
        simp only [List.map_cons] at ih ⊢
        rw [str_intercalate_cons_cons, ih]
        rw [show List.intercalate [ ','] (a :: b :: t₂) =
            a ++ [ ','] ++ List.intercalate [ ','] (b :: t₂) from by
          simp [List.intercalate, List.intersperse]]
        rw [asString_append, asString_append]
        rfl
  intro env
  constructor
  · show String.intercalate ","
      (((kafka.get_broker_endpoints env).data.splitOn ',').map List.asString) =
        kafka.get_broker_endpoints env
    rw [bridge, @List.intercalate_splitOn Char (kafka.get_broker_endpoints env).data ',' _]
    exact asString_data _
  · show ((kafka.get_broker_endpoints env).data.splitOn ',').map List.asString ≠ []
    intro h
    exact List.splitOnP_ne_nil _ _ (List.map_eq_nil_iff.mp h)

/-- The append-accumulator loop of `_find_featuregroup_that_contains_feature`
collects exactly the feature groups a `filter` keeps, behind the accumulator. -/
theorem find_fg_foldl_filter (feature : String) :
    ∀ (l acc : List FeatureGroup),
      l.foldl
        (fun matched fg =>
          if fg.features.any (fun f => f.name == feature) then matched ++ [fg] else matched)
        acc =
      acc ++ l.filter (fun fg => fg.features.any (fun f => f.name == feature)) := by
  intro l
  induction l with
  | nil => intro acc; simp
  | cons fg t ih =>
    intro acc
    by_cases h : (fg.features.any (fun f => f.name == feature)) = true
    · rw [List.foldl_cons, if_pos h, ih]
      simp [List.filter_cons, h]
    · rw [List.foldl_cons, if_neg h, ih]
      simp [List.filter_cons, h]

/-- C2: `_find_featuregroup_that_contains_feature` returns exactly the
feature groups whose features include the requested name (in list order),
and `_find_feature` returns the unique match, raises `FeatureNotFound` when
there is none, and raises `FeatureNameCollisionError` when there are
several. -/
theorem find_feature_spec :
    ∀ (feature featurestore : String) (featuregroups : List FeatureGroup),
      query_planner._find_featuregroup_that_contains_feature featuregroups feature =
        featuregroups.filter (fun fg => fg.features.any (fun f => f.name == feature)) ∧
      (∀ fg : FeatureGroup,
        featuregroups.filter (fun fg => fg.features.any (fun f => f.name == feature)) = [fg] →
          query_planner._find_feature feature featurestore featuregroups = Except.ok fg) ∧
      (featuregroups.filter (fun fg => fg.features.any (fun f => f.name == feature)) = [] →
        ∃ m, query_planner._find_feature feature featurestore featuregroups =
          Except.error (Exc.featureNotFound m)) ∧
      (1 < (featuregroups.filter (fun fg => fg.features.any (fun f => f.name == feature))).length →
        ∃ m, query_planner._find_feature feature featurestore featuregroups =
          Except.error (Exc.featureNameCollisionError m)) := by
  intro feature featurestore featuregroups
  have hfind : query_planner._find_featuregroup_that_contains_feature featuregroups feature =
      featuregroups.filter (fun fg => fg.features.any (fun f => f.name == feature)) := by
    show featuregroups.foldl _ [] = _
    rw [find_fg_foldl_filter feature featuregroups []]
    rfl
  refine ⟨hfind, ?_, ?_, ?_⟩
  · intro fg h
    unfold query_planner._find_feature
    rw [hfind, h]
  · intro h
    have hres : query_planner._find_feature feature featurestore featuregroups =
        Except.error (Exc.featureNotFound ("Could not find the feature with name " ++ feature ++
          " in any of the featuregroups of the featurestore: " ++ featurestore)) := by
      unfold query_planner._find_feature
      rw [hfind, h]
    exact ⟨_, hres⟩
  · intro h
    rcases hl : featuregroups.filter (fun fg => fg.features.any (fun f => f.name == feature)) with
      _ | ⟨a, _ | ⟨b, t⟩⟩
    · rw [hl] at h; simp at h
    · rw [hl] at h; simp at h
    · have hres : query_planner._find_feature feature featurestore featuregroups =
          Except.error (Exc.featureNameCollisionError ("Found the feature with name " ++ feature ++
            " in more than one of the featuregroups of the featurestore " ++ featurestore)) := by
        unfold query_planner._find_feature
        rw [hfind, hl]
      exact ⟨_, hres⟩

/-- Witness for C2 at the test metadata: `team_budget` lives only in
`teams_features`, which `_find_feature` returns. -/
theorem find_feature_spec_witness :
    query_planner._find_feature "team_budget" "test_project_featurestore" sample_featuregroups =
      Except.ok teams_features_fg :=
  (find_feature_spec "team_budget" "test_project_featurestore" sample_featuregroups).2.1
    teams_features_fg (by decide)

/-- C3: the serving REST helpers raise `RestAPIError` exactly on failure:
`_delete_serving_rest` and `_start_or_stop_serving_rest` iff the status
code is not 200 (returning `None` otherwise), and
`_create_or_update_serving_rest` and `_make_inference_request_rest` iff
the status code is neither 200 nor 201, the latter returning the response
body parsed as JSON on success. -/
theorem serving_rest_status_checks :
    ∀ env : Env,
      (∀ serving_id : Int,
        (serving._delete_serving_rest env serving_id = Except.ok () ↔
          (serving._delete_serving_response env serving_id).status_code = 200) ∧
        (raisesRestAPIError (serving._delete_serving_rest env serving_id) = true ↔
          (serving._delete_serving_response env serving_id).status_code ≠ 200)) ∧
      (∀ (serving_id : Int) (action : String),
        (serving._start_or_stop_serving_rest env serving_id action = Except.ok () ↔
          (serving._start_or_stop_serving_response env serving_id action).status_code = 200) ∧
        (raisesRestAPIError (serving._start_or_stop_serving_rest env serving_id action) = true ↔
          (serving._start_or_stop_serving_response env serving_id action).status_code ≠ 200)) ∧
      (∀ (serving_name model_path : String) (model_version : PyVal) (model_server : String)
          (kfserving : Bool) (batching_enabled : PyVal) (topic_name : String)
          (num_partitions num_replicas : PyVal) (serving_id : Option Int) (instances : PyVal),
        (serving._create_or_update_serving_rest env serving_name model_path model_version
            model_server kfserving batching_enabled topic_name num_partitions num_replicas
            serving_id instances = Except.ok () ↔
          ((serving._create_or_update_serving_response env serving_name model_path model_version
              model_server kfserving batching_enabled topic_name num_partitions num_replicas
              serving_id instances).status_code = 200 ∨
            (serving._create_or_update_serving_response env serving_name model_path model_version
              model_server kfserving batching_enabled topic_name num_partitions num_replicas
              serving_id instances).status_code = 201)) ∧
        (raisesRestAPIError (serving._create_or_update_serving_rest env serving_name model_path
            model_version model_server kfserving batching_enabled topic_name num_partitions
            num_replicas serving_id instances) = true ↔
          ¬((serving._create_or_update_serving_response env serving_name model_path model_version
              model_server kfserving batching_enabled topic_name num_partitions num_replicas
              serving_id instances).status_code = 200 ∨
            (serving._create_or_update_serving_response env serving_name model_path model_version
              model_server kfserving batching_enabled topic_name num_partitions num_replicas
              serving_id instances).status_code = 201))) ∧
      (∀ (serving_name : String) (data : JVal) (verb : String),
        (serving._make_inference_request_rest env serving_name data verb =
            Except.ok (serving._make_inference_request_response env serving_name data verb).body ↔
          ((serving._make_inference_request_response env serving_name data verb).status_code =
              200 ∨
            (serving._make_inference_request_response env serving_name data verb).status_code =
              201)) ∧
        (raisesRestAPIError (serving._make_inference_request_rest env serving_name data verb) =
            true ↔
          ¬((serving._make_inference_request_response env serving_name data verb).status_code =
              200 ∨
            (serving._make_inference_request_response env serving_name data verb).status_code =
              201))) := by
  intro env
  refine ⟨?_, ?_, ?_, ?_⟩
  · intro serving_id
    constructor
    · by_cases h : (serving._delete_serving_response env serving_id).status_code = 200 <;>
        simp [serving._delete_serving_rest, h]
    · by_cases h : (serving._delete_serving_response env serving_id).status_code = 200 <;>
        simp [serving._delete_serving_rest, h, raisesRestAPIError]
  · intro serving_id action
    constructor
    · by_cases h :
          (serving._start_or_stop_serving_response env serving_id action).status_code = 200 <;>
        simp [serving._start_or_stop_serving_rest, h]
    · by_cases h :
          (serving._start_or_stop_serving_response env serving_id action).status_code = 200 <;>
        simp [serving._start_or_stop_serving_rest, h, raisesRestAPIError]
  · intro serving_name model_path model_version model_server kfserving batching_enabled
      topic_name num_partitions num_replicas serving_id instances
    constructor
    · by_cases h1 : (serving._create_or_update_serving_response env serving_name model_path
          model_version model_server kfserving batching_enabled topic_name num_partitions
          num_replicas serving_id instances).status_code = 200 <;>
        by_cases h2 : (serving._create_or_update_serving_response env serving_name model_path
          model_version model_server kfserving batching_enabled topic_name num_partitions
          num_replicas serving_id instances).status_code = 201 <;>
        simp [serving._create_or_update_serving_rest, h1, h2]
    · by_cases h1 : (serving._create_or_update_serving_response env serving_name model_path
          model_version model_server kfserving batching_enabled topic_name num_partitions
          num_replicas serving_id instances).status_code = 200 <;>
        by_cases h2 : (serving._create_or_update_serving_response env serving_name model_path
          model_version model_server kfserving batching_enabled topic_name num_partitions
          num_replicas serving_id instances).status_code = 201 <;>
        simp [serving._create_or_update_serving_rest, h1, h2, raisesRestAPIError]
  · intro serving_name data verb
    constructor
    · by_cases h1 : (serving._make_inference_request_response env serving_name data
          verb).status_code = 200 <;>
        by_cases h2 : (serving._make_inference_request_response env serving_name data
          verb).status_code = 201 <;>
        simp [serving._make_inference_request_rest, h1, h2]
    · by_cases h1 : (serving._make_inference_request_response env serving_name data
          verb).status_code = 200 <;>
        by_cases h2 : (serving._make_inference_request_response env serving_name data
          verb).status_code = 201 <;>
        simp [serving._make_inference_request_rest, h1, h2, raisesRestAPIError]

/-- The search loop of `_find_serving_with_name` succeeds exactly on the
first name match, regardless of the accumulated names. -/
theorem find_serving_loop_ok (n : String) :
    ∀ (ss : List Serving) (acc : List String) (s : Serving),
      serving._find_serving_loop n ss acc = Except.ok s ↔
        ss.find? (fun x => x.name == n) = some s := by
  intro ss
  induction ss with
  | nil => intro acc s; simp [serving._find_serving_loop, List.find?]
  | cons x t ih =>
    intro acc s
    by_cases h : x.name = n
    · simp [serving._find_serving_loop, h, List.find?]
    · have hbeq : (x.name == n) = false := by simp [h]
      simp [serving._find_serving_loop, h, List.find?, hbeq, ih]

/-- The search loop raises `ServingNotFound` exactly when no name matches,
regardless of the accumulated names. -/
theorem find_serving_loop_err (n : String) :
    ∀ (ss : List Serving) (acc : List String),
      (∃ m, serving._find_serving_loop n ss acc = Except.error (Exc.servingNotFound m)) ↔
        ss.find? (fun x => x.name == n) = none := by
  intro ss
  induction ss with
  | nil =>
    intro acc
    constructor
    · intro _; rfl
    · intro _; exact ⟨_, rfl⟩
  | cons x t ih =>
    intro acc
    by_cases h : x.name = n
    · simp [serving._find_serving_loop, h, List.find?]
    · have hbeq : (x.name == n) = false := by simp [h]
      simp [serving._find_serving_loop, h, List.find?, hbeq, ih]

/-- `_find_serving_with_name` either finds a serving or raises
`ServingNotFound`; no other outcome exists. -/
theorem find_serving_with_name_shape (n : String) (ss : List Serving) :
    (∃ s, serving._find_serving_with_name n ss = Except.ok s) ∨
    (∃ m, serving._find_serving_with_name n ss = Except.error (Exc.servingNotFound m)) := by
  rcases hd : ss.find? (fun x => x.name == n) with _ | s
  · exact Or.inr ((find_serving_loop_err n ss []).mpr hd)
  · exact Or.inl ⟨s, (find_serving_loop_ok n ss [] s).mpr hd⟩

/-- C4: `_find_serving_with_name` performs a linear search in list order
returning the first serving whose name equals the requested one, and
raises `ServingNotFound` exactly when there is none.  (The serving list is
an immutable value of the embedding, so it cannot be modified.) -/
theorem find_serving_with_name_spec :
    ∀ (serving_name : String) (servings : List Serving),
      (∀ s : Serving,
        serving._find_serving_with_name serving_name servings = Except.ok s ↔
          servings.find? (fun x => x.name == serving_name) = some s) ∧
      ((∃ m, serving._find_serving_with_name serving_name servings =
          Except.error (Exc.servingNotFound m)) ↔
        servings.find? (fun x => x.name == serving_name) = none) := by
  intro n ss
  exact ⟨fun s => find_serving_loop_ok n ss [] s, find_serving_loop_err n ss []⟩

/-- Reduction of `Except` bind on a success value. -/
@[simp] theorem except_bind_ok {ε α β : Type} (a : α) (f : α → Except ε β) :
    (Except.ok a : Except ε α) >>= f = f a := rfl

/-- Reduction of `Except` bind on an error. -/
@[simp] theorem except_bind_error {ε α β : Type} (e : ε) (f : α → Except ε β) :
    (Except.error e : Except ε α) >>= f = Except.error e := rfl

/-- Reduction of `Except` map on a success value. -/
@[simp] theorem except_map_ok {ε α β : Type} (f : α → β) (a : α) :
    f <$> (Except.ok a : Except ε α) = Except.ok (f a) := rfl

/-- Reduction of `Except` map on an error. -/
@[simp] theorem except_map_error {ε α β : Type} (f : α → β) (e : ε) :
    f <$> (Except.error e : Except ε α) = Except.error e := rfl

/-- `_get_servings_rest` either returns the parsed response body (when the
GET answered 200) or raises `RestAPIError`; no other outcome exists. -/
theorem get_servings_rest_cases (env : Env) :
    (serving._get_servings_rest env =
        Except.ok (serving._get_servings_response env).body ∧
      (serving._get_servings_response env).status_code = 200) ∨
    ((∃ m, serving._get_servings_rest env = Except.error (Exc.restAPIError m)) ∧
      (serving._get_servings_response env).status_code ≠ 200) := by
  by_cases h : (serving._get_servings_response env).status_code = 200
  · exact Or.inl ⟨by simp [serving._get_servings_rest, h], h⟩
  · exact Or.inr ⟨⟨serving._rest_error_msg
      "Could not fetch list of servings from Hopsworks REST API"
      (serving._serving_base_url env) (serving._get_servings_response env),
      by simp [serving._get_servings_rest, h]⟩, h⟩

/-- C9: `exists` equals its `try` body (the `ServingNotFound` handler is
unreachable), neither `get_id` nor `exists` ever lets `ServingNotFound`
escape, `exists` either returns a boolean or propagates the `RestAPIError`
of a failed servings GET (the only exception `get_id` does not catch), and
`exists` returns `True` iff `get_id` returns a non-`None` value. -/
theorem exists_get_id_spec :
    ∀ (env : Env) (serving_name : String),
      serving.exists_serving env serving_name = serving.exists_try env serving_name ∧
      (∀ m, serving.get_id env serving_name ≠ Except.error (Exc.servingNotFound m)) ∧
      (∀ m, serving.exists_serving env serving_name ≠
        Except.error (Exc.servingNotFound m)) ∧
      ((∃ b : Bool, serving.exists_serving env serving_name = Except.ok b) ∨
        (∃ m, serving.exists_serving env serving_name =
          Except.error (Exc.restAPIError m))) ∧
      (serving.exists_serving env serving_name = Except.ok true ↔
        ∃ i, serving.get_id env serving_name = Except.ok (some i)) := by
  intro env n
  rcases get_servings_rest_cases env with ⟨hok, _⟩ | ⟨⟨m, herr⟩, _⟩
  · rcases find_serving_with_name_shape n
        (serving._parse_json_servings (serving._get_servings_response env).body.asArray) with
      ⟨s, hs⟩ | ⟨m2, hm⟩
    · have hid : serving.get_id env n = Except.ok (some s.id) := by
        simp [serving.get_id, serving.get_id_try, serving.get_all, hok, hs]
      refine ⟨?_, ?_, ?_, ?_, ?_⟩
      · simp [serving.exists_serving, serving.exists_try, hid]
      · intro m3; simp [hid]
      · intro m3; simp [serving.exists_serving, serving.exists_try, hid]
      · exact Or.inl ⟨true, by simp [serving.exists_serving, serving.exists_try, hid]⟩
      · simp [serving.exists_serving, serving.exists_try, hid]
    · have hid : serving.get_id env n = Except.ok none := by
        simp [serving.get_id, serving.get_id_try, serving.get_all, hok, hm]
      refine ⟨?_, ?_, ?_, ?_, ?_⟩
      · simp [serving.exists_serving, serving.exists_try, hid]
      · intro m3; simp [hid]
      · intro m3; simp [serving.exists_serving, serving.exists_try, hid]
      · exact Or.inl ⟨false, by simp [serving.exists_serving, serving.exists_try, hid]⟩
      · simp [serving.exists_serving, serving.exists_try, hid]
  · have hid : serving.get_id env n = Except.error (Exc.restAPIError m) := by
      simp [serving.get_id, serving.get_id_try, serving.get_all, herr]
    refine ⟨?_, ?_, ?_, ?_, ?_⟩
    · simp [serving.exists_serving, serving.exists_try, hid]
    · intro m3; simp [hid]
    · intro m3; simp [serving.exists_serving, serving.exists_try, hid]
    · exact Or.inr ⟨m, by simp [serving.exists_serving, serving.exists_try, hid]⟩
    · simp [serving.exists_serving, serving.exists_try, hid]

/-- Reading back the key just written into a python dict yields the written
value. -/
theorem dictGet_dictSet_self {α : Type} (k : String) (v : α) :
    ∀ d : List (String × α), dictGet (dictSet d k v) k = some v := by
  intro d
  induction d with
  | nil => simp [dictSet, dictGet]
  | cons kv t ih =>
    by_cases h : kv.1 = k
    · simp [dictSet, dictGet, h]
    · simp [dictSet, dictGet, h, ih]

/-- Writing one key of a python dict leaves every other key unchanged. -/
theorem dictGet_dictSet_other {α : Type} (k₁ k₂ : String) (v : α) (h : k₁ ≠ k₂) :
    ∀ d : List (String × α), dictGet (dictSet d k₁ v) k₂ = dictGet d k₂ := by
  intro d
  induction d with
  | nil => simp [dictSet, dictGet, h]
  | cons kv t ih =>
    by_cases h2 : kv.1 = k₁
    · simp [dictSet, dictGet, h2, h]
    · simp [dictSet, dictGet, h2, ih]

/-- C6: `get_schema` issues a single HTTPS POST to
`hopsworks-api/api/appservice/schema` with an application/json content
type, a JSON body whose `topicName` is the topic and whose `version` is
the version id (defaulting to 1), and returns the response body parsed as
JSON. -/
theorem get_schema_request_spec :
    ∀ (env : Env) (topic : String) (version_id : Int),
      (kafka.get_schema_request env topic version_id).method = "POST" ∧
      (kafka.get_schema_request env topic version_id).https = true ∧
      (kafka.get_schema_request env topic version_id).url =
        constants.REST_CONFIG.HOPSWORKS_REST_RESOURCE ++ "/" ++
          constants.REST_CONFIG.HOPSWORKS_REST_APPSERVICE ++ "/" ++ "schema" ∧
      (kafka.get_schema_request env topic version_id).headers =
        [ ("Content-type", "application/json")] ∧
      (∃ kvs, (kafka.get_schema_request env topic version_id).body = some (JVal.obj kvs) ∧
        dictGet kvs constants.REST_CONFIG.JSON_SCHEMA_TOPICNAME = some (JVal.str topic) ∧
        dictGet kvs constants.REST_CONFIG.JSON_SCHEMA_VERSION = some (JVal.num version_id)) ∧
      kafka.get_schema_default env topic = kafka.get_schema env topic 1 ∧
      kafka.get_schema env topic version_id =
        (env.send (kafka.get_schema_request env topic version_id)).body := by
  intro env topic version_id
  refine ⟨rfl, rfl, rfl, rfl, ⟨_, rfl, ?_, ?_⟩, rfl, rfl⟩
  · rw [dictGet_dictSet_other constants.REST_CONFIG.JSON_SCHEMA_VERSION
      constants.REST_CONFIG.JSON_SCHEMA_TOPICNAME (JVal.num version_id) (by decide)]
    exact dictGet_dictSet_self _ _ _
  · exact dictGet_dictSet_self _ _ _

/-- C5 counterexample: against a backend that answers HTTP 500,
`get_schema` performs no status check and hands the failed response's
parsed body back as its normal result instead of raising. -/
theorem get_schema_returns_failed_body :
    (failEnv.send (kafka.get_schema_request failEnv "test-schema" 1)).status_code = 500 ∧
    kafka.get_schema failEnv "test-schema" 1 =
      JVal.obj [ ("errorCode", JVal.num 120000), ("errorMsg", JVal.str "boom"),
                 ("usrMsg", JVal.str "bad")] :=
  ⟨rfl, rfl⟩

/-- C5 (amended): the serving-module REST helpers do check the status code
(`_get_servings_rest` raises `RestAPIError` exactly when it is not 200 and
returns the parsed body otherwise), but `kafka.get_schema` performs no
status check at all and returns the parsed response body unconditionally. -/
theorem rest_status_check_amended :
    ∀ env : Env,
      ((∃ m, serving._get_servings_rest env = Except.error (Exc.restAPIError m)) ↔
        (serving._get_servings_response env).status_code ≠ 200) ∧
      (serving._get_servings_rest env = Except.ok (serving._get_servings_response env).body ↔
        (serving._get_servings_response env).status_code = 200) ∧
      (∀ (topic : String) (version_id : Int),
        kafka.get_schema env topic version_id =
          (env.send (kafka.get_schema_request env topic version_id)).body) := by
  intro env
  refine ⟨?_, ?_, fun _ _ => rfl⟩
  · by_cases h : (serving._get_servings_response env).status_code = 200 <;>
      simp [serving._get_servings_rest, h]
  · by_cases h : (serving._get_servings_response env).status_code = 200 <;>
      simp [serving._get_servings_rest, h]

/-- C7 counterexample: the default Kafka config holds nine entries, not
eight: `ssl.key.password` is a ninth distinct key (set to the keystore
password), on top of the bootstrap servers, the two serializers, the
security protocol, and the truststore/keystore locations and passwords. -/
theorem kafka_config_nine_entries :
    (kafka.get_kafka_default_config baseEnv).length ≠ 8 ∧
    (kafka.get_kafka_default_config baseEnv).length = 9 := by
  constructor
  · decide
  · decide

/-- C7 (amended): `get_kafka_default_config` returns exactly the nine-entry
dict built in source order: bootstrap servers (the broker env var with
"INTERNAL://" removed), the string/byte-array serializers, SSL, the
truststore location/password, the keystore location/password, and
`ssl.key.password` equal to the keystore password. -/
theorem get_kafka_default_config_spec :
    ∀ env : Env,
      kafka.get_kafka_default_config env =
        [ ("bootstrap.servers", env.kafka_brokers.replace "INTERNAL://" ""),
          ("key.serializer", "org.apache.kafka.common.serialization.StringSerializer"),
          ("value.serializer", "org.apache.kafka.common.serialization.ByteArraySerializer"),
          ("security.protocol", "SSL"),
          ("ssl.truststore.location", env.trust_store),
          ("ssl.truststore.password", env.trust_store_pwd),
          ("ssl.keystore.location", env.key_store),
          ("ssl.keystore.password", env.key_store_pwd),
          ("ssl.key.password", env.key_store_pwd)] ∧
      (kafka.get_kafka_default_config env).length = 9 := by
  intro env
  exact ⟨rfl, rfl⟩

set_option maxHeartbeats 1600000 in
/-- Every failing outcome of `_validate_user_serving_input` is a
`ValueError`; the only other outcome is success. -/
theorem validate_shape (env : Env) (serving_name model_path : String) (model_version : PyVal)
    (model_server : String) (kfserving : Bool) (batching_enabled : PyVal) (topic_name : String)
    (num_partitions num_replicas : PyVal) (instances : PyVal) :
    (∃ m, serving._validate_user_serving_input env serving_name model_path model_version
        model_server kfserving batching_enabled topic_name num_partitions num_replicas instances =
      Except.error (Exc.valueError m)) ∨
    serving._validate_user_serving_input env serving_name model_path model_version model_server
        kfserving batching_enabled topic_name num_partitions num_replicas instances =
      Except.ok () := by
  unfold serving._validate_user_serving_input
  repeat' split
  all_goals first
    | exact Or.inl ⟨_, rfl⟩
    | exact Or.inr rfl

set_option maxHeartbeats 1600000 in
/-- When `_validate_user_serving_input` succeeds, the serving name passed
the regex-and-length check and `model_version` and `instances` passed the
`isinstance(·, int)` checks. -/
theorem validate_ok_facts (env : Env) (serving_name model_path : String) (model_version : PyVal)
    (model_server : String) (kfserving : Bool) (batching_enabled : PyVal) (topic_name : String)
    (num_partitions num_replicas : PyVal) (instances : PyVal) :
    serving._validate_user_serving_input env serving_name model_path model_version model_server
        kfserving batching_enabled topic_name num_partitions num_replicas instances =
      Except.ok () →
    (serving_name.length ≤ 256 ∧ serving_name ≠ "" ∧
      serving.re_match_alnum_anchored serving_name = true) ∧
    model_version.isinstance_int = true ∧ instances.isinstance_int = true := by
  intro h
  unfold serving._validate_user_serving_input at h
  repeat' split at h
  all_goals simp_all

/-- `get_id` either returns an optional id or propagates the
`RestAPIError` of a failed servings GET; no other outcome exists. -/
theorem get_id_cases (env : Env) (n : String) :
    (∃ v, serving.get_id env n = Except.ok v) ∨
    (∃ m, serving.get_id env n = Except.error (Exc.restAPIError m)) := by
  rcases get_servings_rest_cases env with ⟨hok, _⟩ | ⟨⟨m, herr⟩, _⟩
  · rcases find_serving_with_name_shape n
        (serving._parse_json_servings (serving._get_servings_response env).body.asArray) with
      ⟨s, hs⟩ | ⟨m2, hm⟩
    · exact Or.inl ⟨some s.id, by
        simp [serving.get_id, serving.get_id_try, serving.get_all, hok, hs]⟩
    · exact Or.inl ⟨none, by
        simp [serving.get_id, serving.get_id_try, serving.get_all, hok, hm]⟩
  · exact Or.inr ⟨m, by simp [serving.get_id, serving.get_id_try, serving.get_all, herr]⟩

/-- `get_id` reads the transport only through the servings GET: two
backends that agree on that request give the same `get_id` result. -/
theorem get_id_agree (env : Env) (send₁ send₂ : Request → Response) (n : String)
    (h : send₁ (serving._get_servings_request env) = send₂ (serving._get_servings_request env)) :
    serving.get_id { env with send := send₁ } n = serving.get_id { env with send := send₂ } n := by
  have hresp : serving._get_servings_response { env with send := send₁ } =
      serving._get_servings_response { env with send := send₂ } := h
  unfold serving.get_id serving.get_id_try serving.get_all serving._get_servings_rest
  rw [hresp]
  exact rfl

/-- Under a bad serving name or a non-integer model version or instance
count, `_validate_user_serving_input` raises `ValueError`. -/
theorem validate_fails_of_bad_input (env : Env) (serving_name model_path : String)
    (model_version : PyVal) (model_server : String) (kfserving : Bool)
    (batching_enabled : PyVal) (topic_name : String) (num_partitions num_replicas : PyVal)
    (instances : PyVal)
    (h : (serving_name.length > 256 ∨ serving_name = "" ∨
        serving.re_match_alnum_anchored serving_name = false) ∨
      model_version.isinstance_int = false ∨ instances.isinstance_int = false) :
    ∃ m, serving._validate_user_serving_input env serving_name model_path model_version
        model_server kfserving batching_enabled topic_name num_partitions num_replicas
        instances = Except.error (Exc.valueError m) := by
  rcases validate_shape env serving_name model_path model_version model_server kfserving
      batching_enabled topic_name num_partitions num_replicas instances with he | hok
  · exact he
  · exfalso
    obtain ⟨⟨hl, hne, hre⟩, hmv, hinst⟩ := validate_ok_facts env serving_name model_path
      model_version model_server kfserving batching_enabled topic_name num_partitions
      num_replicas instances hok
    rcases h with (h | h | h) | h | h
    · omega
    · exact hne h
    · rw [hre] at h; cases h
    · rw [hmv] at h; cases h
    · rw [hinst] at h; cases h

set_option maxRecDepth 16384 in
/-- C10 counterexample: the serving name "abc\n" contains a character
outside `[a-zA-Z0-9]`, yet `create_or_update` raises nothing and issues the
PUT (python's `$` anchor matches just before a single trailing newline, so
`re.match("^[a-zA-Z0-9]+$", "abc\n")` is truthy). -/
theorem create_or_update_trailing_newline :
    ("abc\n".data.any (fun c => !(serving.isAlnumAscii c)) = true) ∧
    serving.create_or_update baseEnv "abc\n" "/Models/mnist" (PyVal.int 1)
      (some "TENSORFLOW_SERVING") false (PyVal.bool false) "CREATE" (PyVal.int 1) (PyVal.int 1)
      (PyVal.int 1) = Except.ok () ∧
    raisesValueError (serving.create_or_update baseEnv "abc\n" "/Models/mnist" (PyVal.int 1)
      (some "TENSORFLOW_SERVING") false (PyVal.bool false) "CREATE" (PyVal.int 1) (PyVal.int 1)
      (PyVal.int 1)) = false := by
  refine ⟨by decide, ?_, ?_⟩ <;> rfl

/-- C10 (amended): for every serving name that is empty, longer than 256
characters, or rejected by `re.match("^[a-zA-Z0-9]+$", ·)` under python
semantics (which accept alphanumerics followed by one trailing newline),
and for every `model_version` or `instances` failing `isinstance(·, int)`,
the create-or-update PUT is never issued: when the servings GET performed
by `get_id` before validation succeeds, client-side validation raises
`ValueError`; when that GET fails, its `RestAPIError` is raised before
validation; and the outcome never consults the transport beyond the
servings GET (two backends agreeing on it give identical outcomes). -/
theorem create_or_update_validation_spec :
    ∀ (env : Env) (serving_name artifact_path : String) (model_version : PyVal)
      (model_server_arg : Option String) (kfserving : Bool) (batching_enabled : PyVal)
      (topic_name : String) (num_partitions num_replicas : PyVal) (instances : PyVal),
      ((serving_name.length > 256 ∨ serving_name = "" ∨
          serving.re_match_alnum_anchored serving_name = false) ∨
        model_version.isinstance_int = false ∨ instances.isinstance_int = false) →
      (∀ v : Option Int, serving.get_id env serving_name = Except.ok v →
        raisesValueError (serving.create_or_update env serving_name artifact_path model_version
          model_server_arg kfserving batching_enabled topic_name num_partitions num_replicas
          instances) = true) ∧
      (∀ e : Exc, serving.get_id env serving_name = Except.error e →
        serving.create_or_update env serving_name artifact_path model_version model_server_arg
          kfserving batching_enabled topic_name num_partitions num_replicas instances =
          Except.error e) ∧
      (∀ send₁ send₂ : Request → Response,
        send₁ (serving._get_servings_request env) =
          send₂ (serving._get_servings_request env) →
        serving.create_or_update { env with send := send₁ } serving_name artifact_path
            model_version model_server_arg kfserving batching_enabled topic_name num_partitions
            num_replicas instances =
          serving.create_or_update { env with send := send₂ } serving_name artifact_path
            model_version model_server_arg kfserving batching_enabled topic_name num_partitions
            num_replicas instances) := by
  intro env serving_name artifact_path model_version model_server_arg kfserving batching_enabled
    topic_name num_partitions num_replicas instances h
  refine ⟨?_, ?_, ?_⟩
  · intro v hv
    cases model_server_arg with
    | none =>
      obtain ⟨m, hval⟩ := validate_fails_of_bad_input env serving_name
        (env.expand_path artifact_path) model_version
        (serving._detect_model_server (env.expand_path artifact_path)) kfserving
        batching_enabled topic_name num_partitions num_replicas instances h
      simp [serving.create_or_update, hv, hval, Bind.bind, Except.bind, raisesValueError]
    | some ms =>
      obtain ⟨m, hval⟩ := validate_fails_of_bad_input env serving_name
        (env.expand_path artifact_path) model_version ms kfserving batching_enabled topic_name
        num_partitions num_replicas instances h
      simp [serving.create_or_update, hv, hval, Bind.bind, Except.bind, raisesValueError]
  · intro e he
    simp [serving.create_or_update, he, Bind.bind, Except.bind]
  · intro send₁ send₂ hagree
    have hgid : serving.get_id { env with send := send₁ } serving_name =
        serving.get_id { env with send := send₂ } serving_name :=
      get_id_agree env send₁ send₂ serving_name hagree
    rcases get_id_cases { env with send := send₁ } serving_name with ⟨v, hv₁⟩ | ⟨m, hm₁⟩
    · have hv₂ : serving.get_id { env with send := send₂ } serving_name = Except.ok v := by
        rw [← hgid]; exact hv₁
      cases model_server_arg with
      | none =>
        obtain ⟨m2, hval⟩ := validate_fails_of_bad_input env serving_name
          (env.expand_path artifact_path) model_version
          (serving._detect_model_server (env.expand_path artifact_path)) kfserving
          batching_enabled topic_name num_partitions num_replicas instances h
        have hval₁ : serving._validate_user_serving_input { env with send := send₁ }
            serving_name (env.expand_path artifact_path) model_version
            (serving._detect_model_server (env.expand_path artifact_path)) kfserving
            batching_enabled topic_name num_partitions num_replicas instances =
            Except.error (Exc.valueError m2) := hval
        have hval₂ : serving._validate_user_serving_input { env with send := send₂ }
            serving_name (env.expand_path artifact_path) model_version
            (serving._detect_model_server (env.expand_path artifact_path)) kfserving
            batching_enabled topic_name num_partitions num_replicas instances =
            Except.error (Exc.valueError m2) := hval
        have e₁ : serving.create_or_update { env with send := send₁ } serving_name
            artifact_path model_version none kfserving batching_enabled topic_name
            num_partitions num_replicas instances = Except.error (Exc.valueError m2) := by
          simp [serving.create_or_update, hv₁, hval₁, Bind.bind, Except.bind]
        have e₂ : serving.create_or_update { env with send := send₂ } serving_name
            artifact_path model_version none kfserving batching_enabled topic_name
            num_partitions num_replicas instances = Except.error (Exc.valueError m2) := by
          simp [serving.create_or_update, hv₂, hval₂, Bind.bind, Except.bind]
        rw [e₁, e₂]
      | some ms =>
        obtain ⟨m2, hval⟩ := validate_fails_of_bad_input env serving_name
          (env.expand_path artifact_path) model_version ms kfserving batching_enabled
          topic_name num_partitions num_replicas instances h
        have hval₁ : serving._validate_user_serving_input { env with send := send₁ }
            serving_name (env.expand_path artifact_path) model_version ms kfserving
            batching_enabled topic_name num_partitions num_replicas instances =
            Except.error (Exc.valueError m2) := hval
        have hval₂ : serving._validate_user_serving_input { env with send := send₂ }
            serving_name (env.expand_path artifact_path) model_version ms kfserving
            batching_enabled topic_name num_partitions num_replicas instances =
            Except.error (Exc.valueError m2) := hval
        have e₁ : serving.create_or_update { env with send := send₁ } serving_name
            artifact_path model_version (some ms) kfserving batching_enabled topic_name
            num_partitions num_replicas instances = Except.error (Exc.valueError m2) := by
          simp [serving.create_or_update, hv₁, hval₁, Bind.bind, Except.bind]
        have e₂ : serving.create_or_update { env with send := send₂ } serving_name
            artifact_path model_version (some ms) kfserving batching_enabled topic_name
            num_partitions num_replicas instances = Except.error (Exc.valueError m2) := by
          simp [serving.create_or_update, hv₂, hval₂, Bind.bind, Except.bind]
        rw [e₁, e₂]
    · have hm₂ : serving.get_id { env with send := send₂ } serving_name =
          Except.error (Exc.restAPIError m) := by
        rw [← hgid]; exact hm₁
      have e₁ : serving.create_or_update { env with send := send₁ } serving_name artifact_path
          model_version model_server_arg kfserving batching_enabled topic_name num_partitions
          num_replicas instances = Except.error (Exc.restAPIError m) := by
        simp [serving.create_or_update, hm₁, Bind.bind, Except.bind]
      have e₂ : serving.create_or_update { env with send := send₂ } serving_name artifact_path
          model_version model_server_arg kfserving batching_enabled topic_name num_partitions
          num_replicas instances = Except.error (Exc.restAPIError m) := by
        simp [serving.create_or_update, hm₂, Bind.bind, Except.bind]
      rw [e₁, e₂]

set_option maxRecDepth 16384 in
/-- Witness for the amended C10 at a name containing a space: the servings
GET of `baseEnv` succeeds, and validation raises `ValueError`. -/
theorem create_or_update_validation_witness :
    raisesValueError (serving.create_or_update baseEnv "bad name" "/Models/mnist" (PyVal.int 1)
      (some "TENSORFLOW_SERVING") false (PyVal.bool false) "CREATE" (PyVal.int 1) (PyVal.int 1)
      (PyVal.int 1)) = true :=
  (create_or_update_validation_spec baseEnv "bad name" "/Models/mnist" (PyVal.int 1)
    (some "TENSORFLOW_SERVING") false (PyVal.bool false) "CREATE" (PyVal.int 1) (PyVal.int 1)
    (PyVal.int 1) (Or.inl (Or.inr (Or.inr (by decide))))).1 none rfl

end Hops
